import Mathlib

/-!
Shallow embedding of the foreground-application supervisor
(`src/MovePic/manager.py`, class `ApplicationManager`).

Timestamps are integers (seconds, matching `time.time()` arithmetic over
reals restricted to the integer instants our claims need).  The window
query/control tools (`wmctrl`, `xdotool`) and process liveness are modelled
as oracles supplied per call; every external command the code dispatches is
recorded in an effect trace.  Exceptions raised by subprocess dispatch are
not modelled (the source wraps every call site in `try/except` that only
logs), but the exception paths that change control flow — the unparsable
resolution output, the unparsable geometry line — are modelled explicitly.
-/

namespace AppManager

/-- External calls dispatched by the manager, at call granularity.
`killByName` is `kill_processes_by_name`, `killpg*` are the
`os.killpg(..., SIGKILL)` force kills in `stop_test1` / `stop_movepic`,
`waitWindow cls polls found` records one `wait_for_window` call together
with how many 0.5 s polls it performed and its result. -/
inductive Eff where
  | killByName (pat : String)
  | spawnTest1
  | spawnMovepic
  | killpgTest1
  | killpgMovepic
  | waitWindow (cls : String) (polls : Nat) (found : Bool)
  | findWindow (cls : String)
  | activateCall (cls : String)
  | fullscreenCall (cls : String)
  | wakeCall (cls : String)
  | removeSignalFile
deriving Repr, DecidableEq

/-- The mutable fields of `ApplicationManager` our claims are about.
`test1_process` / `movepic_process` model whether the corresponding
`subprocess.Popen` handle is non-`None`.  The diagnostic-only fields
`test1_last_pid` / `test1_last_window_id` are omitted. -/
structure MgrState where
  current_program : String
  last_activity_time : Int
  last_switch_time : Int
  test1_restart_count : Nat
  test1_process : Bool
  movepic_process : Bool
deriving Repr, DecidableEq

/-- `SWITCH_COOLDOWN = 3` (seconds). -/
def SWITCH_COOLDOWN : Int := 3

/-- `MAX_RESTART_COUNT = 5`. -/
def MAX_RESTART_COUNT : Nat := 5

/-- `STARTUP_PROTECTION = 5` (seconds). -/
def STARTUP_PROTECTION : Int := 5

/-- `ApplicationManager.wait_for_window` body.  The loop
`while time.time() - start_time < timeout` with a `time.sleep(0.5)` per
iteration performs `2 * timeout` polls.  `findAt i` is the
`find_window_id` answer at poll `i`; `pollAliveAt i` is whether
`self.test1_process.poll() is None` at poll `i`; `hasT1Handle` is whether
`self.test1_process` is non-`None`.  Returns the result together with the
number of polls performed. -/
def wait_for_window_go (cls : String) (findAt : Nat → Option String)
    (pollAliveAt : Nat → Bool) (hasT1Handle : Bool) :
    Nat → Nat → Bool × Nat
  | i, 0 => (false, i)
  | i, fuel + 1 =>
    match findAt i with
    | some _ => (true, i + 1)
    | none =>
      if cls = "test1.py" ∧ hasT1Handle = true ∧ pollAliveAt i = false then
        (false, i + 1)
      else
        wait_for_window_go cls findAt pollAliveAt hasT1Handle (i + 1) fuel

/-- `ApplicationManager.wait_for_window(wm_class, timeout)`. -/
def wait_for_window (cls : String) (timeout_s : Nat)
    (findAt : Nat → Option String) (pollAliveAt : Nat → Bool)
    (hasT1Handle : Bool) : Bool × Nat :=
  wait_for_window_go cls findAt pollAliveAt hasT1Handle 0 (2 * timeout_s)

/-- Oracle answers consumed by one `start_test1` attempt: the
`wait_for_window` poll answers, the `self.test1_process.poll() is None`
check at line 147 after a timed-out wait, and the value of `time.time()`
at the `last_activity_time` assignment of the success path. -/
structure AttemptEnv where
  findAt : Nat → Option String
  pollAliveAt : Nat → Bool
  aliveAfter : Bool
  t_done : Int

/-- `ApplicationManager.start_test1`, with the mutually recursive
`restart_test1` tail inlined (the standalone `restart_test1` is below).
Each list element supplies the oracle answers for one launch attempt; an
empty list models a launch whose completion is not observed (the state is
the one right after the `Popen`).  Mirrors the source order: reset
`test1_restart_count` to 0, kill remnants, spawn, wait for the window
(20 s); on timeout with the process alive, activate + fullscreen and fall
through to the success tail; on process death, `restart_test1`:
increment the counter, stop if it reached `MAX_RESTART_COUNT`, else
force-stop, back off and start again. -/
def start_test1 (s : MgrState) : List AttemptEnv → MgrState × List Eff
  | [] =>
    ({ s with test1_restart_count := 0, test1_process := true },
     [Eff.killByName "test1.py", Eff.spawnTest1])
  | env :: rest =>
    let s0 : MgrState := { s with test1_restart_count := 0, test1_process := true }
    let startEffs : List Eff := [Eff.killByName "test1.py", Eff.spawnTest1]
    let w := wait_for_window "test1.py" 20 env.findAt env.pollAliveAt true
    let waitEff := Eff.waitWindow "test1.py" w.2 w.1
    if w.1 = true ∨ env.aliveAfter = true then
      let extra : List Eff :=
        if w.1 = true then []
        else [Eff.activateCall "test1.py", Eff.fullscreenCall "test1.py"]
      ({ s0 with current_program := "test1", last_activity_time := env.t_done },
       startEffs ++ [waitEff] ++ extra ++
         [Eff.findWindow "test1.py", Eff.activateCall "test1.py",
          Eff.fullscreenCall "test1.py"])
    else
      let s1 : MgrState := { s0 with test1_restart_count := s0.test1_restart_count + 1 }
      if s1.test1_restart_count ≥ MAX_RESTART_COUNT then
        (s1, startEffs ++ [waitEff])
      else
        let r := start_test1 { s1 with test1_process := false } rest
        (r.1, startEffs ++ [waitEff, Eff.killpgTest1, Eff.killByName "test1.py"] ++ r.2)

/-- `ApplicationManager.restart_test1` as called from outside a start
attempt (`switch_to_test1`, the health monitor): increment the counter,
give up at the ceiling, otherwise `stop_test1(force_kill=True)`
(a no-op when the handle is `None`), back off 2 s, `start_test1`. -/
def restart_test1 (s : MgrState) (atts : List AttemptEnv) : MgrState × List Eff :=
  let s1 : MgrState := { s with test1_restart_count := s.test1_restart_count + 1 }
  if s1.test1_restart_count ≥ MAX_RESTART_COUNT then (s1, [])
  else
    let stopEffs : List Eff :=
      if s1.test1_process = true then [Eff.killpgTest1, Eff.killByName "test1.py"]
      else []
    let r := start_test1 { s1 with test1_process := false } atts
    (r.1, stopEffs ++ r.2)

/-- `ApplicationManager.stop_movepic(force_kill=True)`: when the handle
is present, `os.killpg(..., SIGKILL)`, null the handle, then
`kill_processes_by_name("MovePic.py")`; when the handle is `None`, the
whole body is skipped. -/
def stop_movepic_force (s : MgrState) : MgrState × List Eff :=
  if s.movepic_process = true then
    ({ s with movepic_process := false },
     [Eff.killpgMovepic, Eff.killByName "MovePic.py"])
  else (s, [])

/-- Oracle answers consumed by one `switch_to_test1` call: the
`is_test1_alive` poll outcome (conjoined below with the handle being
non-`None`, as in the source), the two `find_window_id` results at lines
251 and 264, whether the `activate_window` at line 253 found a window,
the value of `time.time()` at the success assignment, and the attempt
environments consumed if `start_test1` / `restart_test1` run. -/
structure T1SwitchEnv where
  pollAlive : Bool
  find1 : Option String
  activate1 : Bool
  find2 : Option String
  t_done : Int
  atts : List AttemptEnv

/-- Lines 259–273 of `switch_to_test1`: activate, fullscreen, wake,
sleep, re-verify the window, and either the restart path or the success
assignments. -/
def switch_to_test1_tail (s1 : MgrState) (t : Int) (env : T1SwitchEnv)
    (effsSoFar : List Eff) : MgrState × List Eff :=
  let acts : List Eff :=
    [Eff.activateCall "test1.py", Eff.fullscreenCall "test1.py",
     Eff.wakeCall "test1.py", Eff.findWindow "test1.py"]
  match env.find2 with
  | none =>
    let p2 := restart_test1 s1 env.atts
    ({ p2.1 with last_switch_time := t }, effsSoFar ++ acts ++ p2.2)
  | some _ =>
    ({ s1 with current_program := "test1", last_activity_time := env.t_done,
               last_switch_time := t },
     effsSoFar ++ acts)

/-- `ApplicationManager.switch_to_test1`.  Order mirrors the source:
cooldown check, no-op check, force-stop movepic, liveness check (restart
path), window lookup (re-activate or restart path), activate +
fullscreen + wake, re-verify the window, success assignments.  Every
path past the two guard checks ends with
`last_switch_time := current_time` (the entry time `t`). -/
def switch_to_test1 (s : MgrState) (t : Int) (env : T1SwitchEnv) :
    MgrState × List Eff :=
  if t - s.last_switch_time < SWITCH_COOLDOWN then (s, [])
  else if s.current_program = "test1" then (s, [])
  else
    let p1 := stop_movepic_force s
    if ¬ (s.test1_process = true ∧ env.pollAlive = true) then
      let p2 := start_test1 p1.1 env.atts
      ({ p2.1 with last_switch_time := t }, p1.2 ++ p2.2)
    else
      match env.find1 with
      | none =>
        if env.activate1 = false then
          let p2 := restart_test1 p1.1 env.atts
          ({ p2.1 with last_switch_time := t },
           p1.2 ++ [Eff.findWindow "test1.py", Eff.activateCall "test1.py"] ++ p2.2)
        else
          switch_to_test1_tail p1.1 t env
            (p1.2 ++ [Eff.findWindow "test1.py", Eff.activateCall "test1.py"])
      | some _ =>
        switch_to_test1_tail p1.1 t env (p1.2 ++ [Eff.findWindow "test1.py"])

/-- Oracle answers for one `switch_to_movepic` call: the
`find_window_id` answers during `start_movepic`'s 5 s window wait. -/
structure MPSwitchEnv where
  findAt : Nat → Option String

/-- `ApplicationManager.start_movepic`: kill remnants, spawn,
`wait_for_window(MOVEPIC_WM_CLASS, 5)` (result ignored), activate, set
`current_program = "movepic"`.  Note: it touches neither the test1
process nor `last_activity_time`. -/
def start_movepic (s : MgrState) (env : MPSwitchEnv) : MgrState × List Eff :=
  let s0 : MgrState := { s with movepic_process := true }
  let w := wait_for_window "MovePic.py" 5 env.findAt (fun _ => true) s.test1_process
  ({ s0 with current_program := "movepic" },
   [Eff.killByName "MovePic.py", Eff.spawnMovepic,
    Eff.waitWindow "MovePic.py" w.2 w.1, Eff.activateCall "MovePic.py"])

/-- `ApplicationManager.switch_to_movepic`: cooldown check, no-op check,
`start_movepic`, `last_switch_time := current_time`. -/
def switch_to_movepic (s : MgrState) (t : Int) (env : MPSwitchEnv) :
    MgrState × List Eff :=
  if t - s.last_switch_time < SWITCH_COOLDOWN then (s, [])
  else if s.current_program = "movepic" then (s, [])
  else
    let p1 := start_movepic s env
    ({ p1.1 with last_switch_time := t }, p1.2)

/-- One iteration of `ApplicationManager.monitor_low_signal`: if the
signal file exists, remove it via `sudo rm -f` and, only when the current
program is `"movepic"`, call `switch_to_test1`.  Note the loop body never
assigns `last_activity_time` itself. -/
def monitor_low_signal_iter (s : MgrState) (fileExists : Bool) (t : Int)
    (env : T1SwitchEnv) : MgrState × List Eff :=
  if fileExists = true then
    if s.current_program = "movepic" then
      let p := switch_to_test1 s t env
      (p.1, Eff.removeSignalFile :: p.2)
    else (s, [Eff.removeSignalFile])
  else (s, [])

/-- An `evdev` input event as `listen_device_input` discriminates it:
a key event with its value, a relative or absolute movement with its
value, or anything else. -/
inductive InputEvent where
  | key (value : Int)
  | rel (value : Int)
  | absMove (value : Int)
  | other
deriving Repr, DecidableEq

/-- One event of `ApplicationManager.listen_device_input`: inside the
startup-protection window events are skipped; a key-down
(`event.value == 1`) or a movement with `abs(event.value) > 5` sets
`last_activity_time = time.time()` and, when the current program is
`"movepic"`, calls `switch_to_test1`. -/
def listen_device_input_iter (s : MgrState) (t startTime : Int)
    (ev : InputEvent) (env : T1SwitchEnv) : MgrState × List Eff :=
  if t - startTime < STARTUP_PROTECTION then (s, [])
  else
    match ev with
    | InputEvent.key v =>
      if v = 1 then
        let s1 : MgrState := { s with last_activity_time := t }
        if s1.current_program = "movepic" then switch_to_test1 s1 t env
        else (s1, [])
      else (s, [])
    | InputEvent.rel v =>
      if v.natAbs > 5 then
        let s1 : MgrState := { s with last_activity_time := t }
        if s1.current_program = "movepic" then switch_to_test1 s1 t env
        else (s1, [])
      else (s, [])
    | InputEvent.absMove v =>
      if v.natAbs > 5 then
        let s1 : MgrState := { s with last_activity_time := t }
        if s1.current_program = "movepic" then switch_to_test1 s1 t env
        else (s1, [])
      else (s, [])
    | InputEvent.other => (s, [])

/-- Leading-whitespace drop, one side of Python's `str.strip()`. -/
def dropLeadingWs : List Char → List Char
  | [] => []
  | c :: rest => if c.isWhitespace then dropLeadingWs rest else c :: rest

/-- Python's `str.strip()` over the character list. -/
def pyStrip (cs : List Char) : List Char :=
  ((dropLeadingWs ((dropLeadingWs cs).reverse)).reverse)

/-- Python's `c in s` for a single character. -/
def containsChar (c : Char) : List Char → Bool
  | [] => false
  | d :: rest => if d = c then true else containsChar c rest

/-- Python's `s.split(sep)` for a single-character separator: splits at
every occurrence, keeping empty pieces. -/
def splitOnChar (sep : Char) : List Char → List (List Char)
  | [] => [[]]
  | c :: rest =>
    if c = sep then [] :: splitOnChar sep rest
    else
      match splitOnChar sep rest with
      | [] => [[c]]
      | g :: gs => (c :: g) :: gs

/-- Decimal digits to a natural number. -/
def digitsToNat (cs : List Char) : Nat :=
  cs.foldl (fun a c => a * 10 + (c.toNat - 48)) 0

/-- Python's `int(s)`: tolerate surrounding whitespace and an optional
sign, require a nonempty run of decimal digits, raise (`none`)
otherwise. -/
def pyInt? (cs0 : List Char) : Option Int :=
  let cs := pyStrip cs0
  match cs with
  | '-' :: rest =>
    if rest ≠ [] ∧ rest.all Char.isDigit then some (-(digitsToNat rest : Int))
    else none
  | '+' :: rest =>
    if rest ≠ [] ∧ rest.all Char.isDigit then some ((digitsToNat rest : Int))
    else none
  | _ =>
    if cs ≠ [] ∧ cs.all Char.isDigit then some ((digitsToNat cs : Int))
    else none

/-- `ApplicationManager.get_screen_resolution`, as a function of the
stripped stdout of the three detection commands, in order.  Mirrors the
source loop: outputs without an `x` are skipped; at the first output
containing `x`, `output.split('x')` must yield exactly two parts
(otherwise the tuple unpacking raises, the `except` catches it and the
default is returned without trying later strategies) and both parts must
parse as `int` (same exception path otherwise). -/
def get_screen_resolution : List String → Int × Int
  | [] => (1024, 600)
  | o :: rest =>
    let out := pyStrip o.data
    if containsChar 'x' out then
      match splitOnChar 'x' out with
      | [w, h] =>
        match pyInt? w, pyInt? h with
        | some wi, some hi => (wi, hi)
        | _, _ => (1024, 600)
      | _ => (1024, 600)
    else get_screen_resolution rest

/-- Parse a `WIDTHxHEIGHT` pair, per the spec's words. -/
def parsePair? (s : String) : Option (Int × Int) :=
  match splitOnChar 'x' (pyStrip s.data) with
  | [w, h] =>
    match pyInt? w, pyInt? h with
    | some wi, some hi => some (wi, hi)
    | _, _ => none
  | _ => none

/-- Modelled from the claim's words (for refinement comparison only):
"tries its ordered list of strategies and returns the first strategy's
output that parses as a WIDTHxHEIGHT pair; if all strategies fail to
yield a parsable pair it returns the default (1024, 600)". -/
def spec_screen_resolution (outs : List String) : Int × Int :=
  ((outs.filterMap parsePair?).head?).getD (1024, 600)

/-- The amended behaviour, stated as its own recursion: scan strategies
in order skipping outputs without an `x`; at the first output containing
an `x`, return its parse if it parses as a pair and otherwise stop with
the default, without trying later strategies; return the default when no
output contains an `x`. -/
def amended_screen_resolution : List String → Int × Int
  | [] => (1024, 600)
  | o :: rest =>
    if containsChar 'x' (pyStrip o.data) then (parsePair? o).getD (1024, 600)
    else amended_screen_resolution rest

/-- The geometry answer of `wmctrl -i -lG | grep <id>` as
`force_fullscreen` consumes it: `absent` is a failed grep or a line with
fewer than 6 fields (the size check is skipped), `bad` is a line whose
width/height fields do not parse as `int` (the raised `ValueError` is
caught and the function returns `False`), `ok w h` is a parsed
geometry. -/
inductive GeomView where
  | absent
  | bad
  | ok (w h : Int)
deriving Repr, DecidableEq

/-- Window-manager mutation commands issued by `force_fullscreen`. -/
inductive WmCmd where
  | addFullscreen
  | resizeFull
  | xdotoolF11
deriving Repr, DecidableEq

/-- `ApplicationManager.force_fullscreen(wm_class, force)`, as a function
of the window lookup answer, the geometry answer, the detected screen
size and the `force` flag.  Returns the boolean result and the list of
window-manager mutation commands dispatched (the initial `wmctrl` lookup
and geometry grep are queries, not mutations).  The already-fullscreen
test is `abs(win_width - screen_width) < 10 and
abs(win_height - screen_height) < 10`, strict. -/
def force_fullscreen (window : Option String) (geom : GeomView)
    (screen_w screen_h : Int) (force : Bool) : Bool × List WmCmd :=
  match window with
  | none => (false, [])
  | some _ =>
    match geom with
    | GeomView.bad => (false, [])
    | GeomView.absent =>
      if force = false then (true, [WmCmd.addFullscreen, WmCmd.resizeFull])
      else (true, [WmCmd.xdotoolF11])
    | GeomView.ok w h =>
      if (w - screen_w).natAbs < 10 ∧ (h - screen_h).natAbs < 10 then
        (true, [])
      else if force = false then (true, [WmCmd.addFullscreen, WmCmd.resizeFull])
      else (true, [WmCmd.xdotoolF11])

/-- A transition request with its entry time and its oracle answers. -/
inductive Req where
  | toTest1 (t : Int) (env : T1SwitchEnv)
  | toMovepic (t : Int) (env : MPSwitchEnv)

/-- The entry time of a request. -/
def reqTime : Req → Int
  | Req.toTest1 t _ => t
  | Req.toMovepic t _ => t

/-- The target program of a request. -/
def reqTarget : Req → String
  | Req.toTest1 _ _ => "test1"
  | Req.toMovepic _ _ => "movepic"

/-- Apply one request to the state. -/
def applyReq (s : MgrState) : Req → MgrState × List Eff
  | Req.toTest1 t env => switch_to_test1 s t env
  | Req.toMovepic t env => switch_to_movepic s t env

/-- Run a sequence of requests, concatenating the effect traces. -/
def runReqs (s : MgrState) : List Req → MgrState × List Eff
  | [] => (s, [])
  | r :: rest =>
    let p1 := applyReq s r
    let p2 := runReqs p1.1 rest
    (p2.1, p1.2 ++ p2.2)

/-! ## Concrete states and environments used by the evaluations below -/

/-- An attempt whose process is dead from the first poll and whose window
never appears: `wait_for_window` aborts at the first poll and the attempt
fails. -/
def deadEnv : AttemptEnv :=
  { findAt := fun _ => none, pollAliveAt := fun _ => false,
    aliveAfter := false, t_done := 0 }

/-- The manager state right after `__init__` (timestamps normalised to 0). -/
def init0 : MgrState :=
  { current_program := "test1", last_activity_time := 0, last_switch_time := 0,
    test1_restart_count := 0, test1_process := false, movepic_process := false }

/-- A state foregrounding test1 with a live test1 handle and no movepic. -/
def s_mp : MgrState :=
  { current_program := "test1", last_activity_time := 42, last_switch_time := 0,
    test1_restart_count := 0, test1_process := true, movepic_process := false }

/-- A state foregrounding movepic with both handles present. -/
def s_burst : MgrState :=
  { current_program := "movepic", last_activity_time := 0, last_switch_time := 0,
    test1_restart_count := 0, test1_process := true, movepic_process := true }

/-- A switch environment in which every lookup succeeds: the switch to
test1 completes successfully with `time.time() = 11` at the success
assignment. -/
def e_ok : T1SwitchEnv :=
  { pollAlive := true, find1 := some "0x1", activate1 := true,
    find2 := some "0x1", t_done := 11, atts := [] }

/-- A movepic switch environment whose window appears at the first poll. -/
def e_mpOk : MPSwitchEnv := { findAt := fun _ => some "0x2" }

/-- A window that appears only at poll 12 (6 s after the wait begins). -/
def lateFind : Nat → Option String := fun i => if i ≥ 12 then some "0x4" else none

/-! ## Helper lemmas -/

/-- A request inside the cooldown window is dropped without any state
change or effect (`switch_to_test1`, lines 235–237). -/
theorem switch_to_test1_cooldown (s : MgrState) (t : Int) (env : T1SwitchEnv)
    (h : t - s.last_switch_time < SWITCH_COOLDOWN) :
    switch_to_test1 s t env = (s, []) := by
  unfold switch_to_test1
  rw [if_pos h]

/-- A request inside the cooldown window is dropped without any state
change or effect (`switch_to_movepic`, lines 288–290). -/
theorem switch_to_movepic_cooldown (s : MgrState) (t : Int) (env : MPSwitchEnv)
    (h : t - s.last_switch_time < SWITCH_COOLDOWN) :
    switch_to_movepic s t env = (s, []) := by
  unfold switch_to_movepic
  rw [if_pos h]

/-- `start_test1` never touches `last_switch_time`. -/
theorem start_test1_lst (atts : List AttemptEnv) (s : MgrState) :
    ((start_test1 s atts).1).last_switch_time = s.last_switch_time := by
  induction atts generalizing s with
  | nil => rfl
  | cons env rest ih =>
    unfold start_test1
    dsimp only
    split
    · rfl
    · split
      · rfl
      · exact ih _

/-- `restart_test1` never touches `last_switch_time`. -/
theorem restart_test1_lst (s : MgrState) (atts : List AttemptEnv) :
    ((restart_test1 s atts).1).last_switch_time = s.last_switch_time := by
  unfold restart_test1
  dsimp only
  split
  · rfl
  · exact start_test1_lst atts _

/-- Every path of `switch_to_test1` past the cooldown and no-op checks
ends with `last_switch_time := current_time` (the entry time). -/
theorem switch_to_test1_sets_lst (s : MgrState) (t : Int) (env : T1SwitchEnv)
    (hc : ¬ (t - s.last_switch_time < SWITCH_COOLDOWN))
    (hn : s.current_program ≠ "test1") :
    ((switch_to_test1 s t env).1).last_switch_time = t := by
  unfold switch_to_test1 switch_to_test1_tail
  rw [if_neg hc, if_neg hn]
  dsimp only
  split
  · rfl
  · split
    · split
      · rfl
      · split <;> rfl
    · split <;> rfl

/-- Every path of `switch_to_movepic` past the cooldown and no-op checks
ends with `last_switch_time := current_time` (the entry time). -/
theorem switch_to_movepic_sets_lst (s : MgrState) (t : Int) (env : MPSwitchEnv)
    (hc : ¬ (t - s.last_switch_time < SWITCH_COOLDOWN))
    (hn : s.current_program ≠ "movepic") :
    ((switch_to_movepic s t env).1).last_switch_time = t := by
  unfold switch_to_movepic
  rw [if_neg hc, if_neg hn]

/-- A request inside the cooldown window is dropped, uniformly over the
request kind. -/
theorem applyReq_cooldown (s : MgrState) (r : Req)
    (h : reqTime r - s.last_switch_time < SWITCH_COOLDOWN) :
    applyReq s r = (s, []) := by
  cases r with
  | toTest1 t env => exact switch_to_test1_cooldown s t env h
  | toMovepic t env => exact switch_to_movepic_cooldown s t env h

/-- A request past both checks stamps `last_switch_time` with its entry
time, uniformly over the request kind. -/
theorem applyReq_sets_lst (s : MgrState) (r : Req)
    (hc : ¬ (reqTime r - s.last_switch_time < SWITCH_COOLDOWN))
    (hn : reqTarget r ≠ s.current_program) :
    ((applyReq s r).1).last_switch_time = reqTime r := by
  cases r with
  | toTest1 t env => exact switch_to_test1_sets_lst s t env hc (Ne.symm hn)
  | toMovepic t env => exact switch_to_movepic_sets_lst s t env hc (Ne.symm hn)

/-- The success path of `switch_to_test1`: past both checks, with a live
process and both window lookups succeeding, the three success
assignments of lines 270–272 are performed (`last_activity_time` gets
the completion-time reading of `time.time()`, `last_switch_time` the
entry time). -/
theorem switch_to_test1_success (s : MgrState) (t : Int) (e : T1SwitchEnv)
    (hc : ¬ (t - s.last_switch_time < SWITCH_COOLDOWN))
    (hn : s.current_program ≠ "test1")
    (hp : s.test1_process = true) (ha : e.pollAlive = true)
    (h1 : e.find1.isSome) (h2 : e.find2.isSome) :
    (switch_to_test1 s t e).1.current_program = "test1" ∧
    (switch_to_test1 s t e).1.last_activity_time = e.t_done ∧
    (switch_to_test1 s t e).1.last_switch_time = t := by
  obtain ⟨w1, hw1⟩ := Option.isSome_iff_exists.mp h1
  obtain ⟨w2, hw2⟩ := Option.isSome_iff_exists.mp h2
  unfold switch_to_test1 switch_to_test1_tail
  rw [if_neg hc, if_neg hn]
  dsimp only
  rw [if_neg (by simp [hp, ha]), hw1, hw2]
  exact ⟨rfl, rfl, rfl⟩

/-- `switch_to_movepic` never touches the test1 handle,
`last_activity_time` or the restart counter, and never kills test1. -/
theorem switch_to_movepic_frame (s : MgrState) (t : Int) (e : MPSwitchEnv) :
    (switch_to_movepic s t e).1.test1_process = s.test1_process ∧
    (switch_to_movepic s t e).1.last_activity_time = s.last_activity_time ∧
    (switch_to_movepic s t e).1.test1_restart_count = s.test1_restart_count ∧
    Eff.killpgTest1 ∉ (switch_to_movepic s t e).2 ∧
    Eff.killByName "test1.py" ∉ (switch_to_movepic s t e).2 := by
  unfold switch_to_movepic start_movepic
  dsimp only
  split
  · simp
  · split
    · simp
    · simp

/-- Past both checks, the effect trace of `switch_to_test1` extends the
trace of `stop_movepic(force_kill=True)`: the old foreground program is
stopped before anything is done for the target. -/
theorem switch_to_test1_trace_shape (s : MgrState) (t : Int) (e : T1SwitchEnv)
    (hc : ¬ (t - s.last_switch_time < SWITCH_COOLDOWN))
    (hn : s.current_program ≠ "test1") :
    ∃ rest, (switch_to_test1 s t e).2 = (stop_movepic_force s).2 ++ rest := by
  unfold switch_to_test1 switch_to_test1_tail
  rw [if_neg hc, if_neg hn]
  dsimp only
  split
  · exact ⟨_, rfl⟩
  · split
    · split
      all_goals try split
      all_goals dsimp only
      all_goals simp only [List.append_assoc]
      all_goals exact ⟨_, rfl⟩
    · split
      all_goals dsimp only
      all_goals simp only [List.append_assoc]
      all_goals exact ⟨_, rfl⟩

/-- `start_test1` always dispatches a launch of test1. -/
theorem start_test1_spawns (s : MgrState) (atts : List AttemptEnv) :
    Eff.spawnTest1 ∈ (start_test1 s atts).2 := by
  cases atts with
  | nil => simp [start_test1]
  | cons env rest =>
    unfold start_test1
    dsimp only
    split
    · simp
    · split
      · simp
      · simp

/-- While the window never appears and the liveness abort never fires,
`wait_for_window` consumes its whole poll budget. -/
theorem wait_go_no_find (cls : String) (f : Nat → Option String)
    (a : Nat → Bool) (hh : Bool) (hf : ∀ j, f j = none)
    (hab : ∀ j, ¬ (cls = "test1.py" ∧ hh = true ∧ a j = false)) :
    ∀ (fuel i : Nat),
      wait_for_window_go cls f a hh i fuel = (false, i + fuel) := by
  intro fuel
  induction fuel with
  | zero => intro i; rfl
  | succ n ih =>
    intro i
    unfold wait_for_window_go
    rw [hf i, if_neg (hab i), ih (i + 1)]
    have h : i + 1 + n = i + (n + 1) := by omega
    rw [h]

/-! ## Claims -/

/-- C1: the claim says the restart counter is reset to 0 only after a
successful start-and-window-detected sequence, increases by exactly 1
per consecutive failed cycle, and restarts cease at
`MAX_RESTART_COUNT = 5`.  The code instead resets the counter to 0 at
the top of every `start_test1` attempt, so failures never accumulate:
after six consecutive failed start-and-detect cycles the counter is 0,
a seventh launch has already been dispatched, and the ceiling is never
reached (an unbounded crash loop). -/
theorem C1_restart_ceiling_unreachable :
    ((start_test1 init0 (List.replicate 6 deadEnv)).1.test1_restart_count = 0) ∧
    (((start_test1 init0 (List.replicate 6 deadEnv)).2.filter
        (fun e => e == Eff.spawnTest1)).length = 7) := by
  decide

/-- C2 (counterexample): a transition to IDLE that completes (it sets
`current_program = "movepic"` and stamps `last_switch_time`) leaves the
previously foregrounded test1 process untouched: its handle is still
live and no kill of test1 appears in the effect trace, so the
non-current program is left running. -/
theorem C2_idle_switch_leaves_primary_running :
    ((switch_to_movepic s_mp 100 e_mpOk).1.current_program = "movepic") ∧
    ((switch_to_movepic s_mp 100 e_mpOk).1.test1_process = true) ∧
    (Eff.killpgTest1 ∉ (switch_to_movepic s_mp 100 e_mpOk).2) ∧
    (Eff.killByName "test1.py" ∉ (switch_to_movepic s_mp 100 e_mpOk).2) := by
  decide

/-- C2 (amended): only transitions to PRIMARY force-kill the other
program first — every `switch_to_test1` past the cooldown and no-op
checks, with the movepic handle present, opens its effect trace with the
movepic force-kill before anything is done for the target; transitions
to IDLE never stop test1 and leave its handle as it was. -/
theorem C2_kill_before_start (s : MgrState) (t : Int)
    (eT : T1SwitchEnv) (eM : MPSwitchEnv)
    (hc : ¬ (t - s.last_switch_time < SWITCH_COOLDOWN))
    (hn : s.current_program ≠ "test1")
    (hm : s.movepic_process = true) :
    (∃ rest, (switch_to_test1 s t eT).2 =
        Eff.killpgMovepic :: Eff.killByName "MovePic.py" :: rest) ∧
    ((switch_to_movepic s t eM).1.test1_process = s.test1_process ∧
      Eff.killpgTest1 ∉ (switch_to_movepic s t eM).2 ∧
      Eff.killByName "test1.py" ∉ (switch_to_movepic s t eM).2) := by
  refine ⟨?_, (switch_to_movepic_frame s t eM).1,
    (switch_to_movepic_frame s t eM).2.2.2.1,
    (switch_to_movepic_frame s t eM).2.2.2.2⟩
  obtain ⟨rest, hr⟩ := switch_to_test1_trace_shape s t eT hc hn
  refine ⟨rest, ?_⟩
  rw [hr]
  unfold stop_movepic_force
  rw [if_pos hm]
  rfl

/-- Closed witness for `C2_kill_before_start` at a concrete state with a
live movepic handle. -/
theorem C2_kill_before_start_witness :
    (∃ rest, (switch_to_test1 s_burst 10 e_ok).2 =
        Eff.killpgMovepic :: Eff.killByName "MovePic.py" :: rest) ∧
    ((switch_to_movepic s_burst 10 e_mpOk).1.test1_process =
        s_burst.test1_process ∧
      Eff.killpgTest1 ∉ (switch_to_movepic s_burst 10 e_mpOk).2 ∧
      Eff.killByName "test1.py" ∉ (switch_to_movepic s_burst 10 e_mpOk).2) :=
  C2_kill_before_start s_burst 10 e_ok e_mpOk (by decide) (by decide) rfl

/-- C3 (counterexample): a transition to IDLE that completes
successfully sets `current_program` and `last_switch_time` but does not
set `last_activity_time = now`: from a state with
`last_activity_time = 42`, switching to movepic at `now = 100` leaves
`last_activity_time = 42`. -/
theorem C3_idle_switch_skips_activity_time :
    ((switch_to_movepic s_mp 100 e_mpOk).1.current_program = "movepic") ∧
    ((switch_to_movepic s_mp 100 e_mpOk).1.last_switch_time = 100) ∧
    ((switch_to_movepic s_mp 100 e_mpOk).1.last_activity_time = 42) ∧
    ((42 : Int) ≠ 100) := by
  decide

/-- C3 (amended): a successful transition to PRIMARY sets all three of
`current_program`, `last_activity_time` (to the completion-time clock
reading) and `last_switch_time` (to the entry time); a transition to
IDLE sets only `current_program` and `last_switch_time`, leaving
`last_activity_time` unchanged. -/
theorem C3_success_state_updates (s : MgrState) (t : Int)
    (eT : T1SwitchEnv) (eM : MPSwitchEnv)
    (hc : ¬ (t - s.last_switch_time < SWITCH_COOLDOWN)) :
    (s.current_program ≠ "test1" → s.test1_process = true →
      eT.pollAlive = true → eT.find1.isSome → eT.find2.isSome →
      ((switch_to_test1 s t eT).1.current_program = "test1" ∧
       (switch_to_test1 s t eT).1.last_activity_time = eT.t_done ∧
       (switch_to_test1 s t eT).1.last_switch_time = t)) ∧
    (s.current_program ≠ "movepic" →
      ((switch_to_movepic s t eM).1.current_program = "movepic" ∧
       (switch_to_movepic s t eM).1.last_switch_time = t ∧
       (switch_to_movepic s t eM).1.last_activity_time =
         s.last_activity_time)) := by
  constructor
  · intro hn hp ha h1 h2
    exact switch_to_test1_success s t eT hc hn hp ha h1 h2
  · intro hn
    refine ⟨?_, switch_to_movepic_sets_lst s t eM hc hn,
      (switch_to_movepic_frame s t eM).2.1⟩
    unfold switch_to_movepic start_movepic
    rw [if_neg hc, if_neg hn]

/-- Closed witness for `C3_success_state_updates`: a successful switch
to PRIMARY at entry time 10 with completion clock 11. -/
theorem C3_success_state_updates_witness :
    (switch_to_test1 s_burst 10 e_ok).1.current_program = "test1" ∧
    (switch_to_test1 s_burst 10 e_ok).1.last_activity_time = 11 ∧
    (switch_to_test1 s_burst 10 e_ok).1.last_switch_time = 10 :=
  (C3_success_state_updates s_burst 10 e_ok e_mpOk (by decide)).1
    (by decide) rfl rfl rfl rfl

/-- Once some request has stamped `last_switch_time = t0`, any further
requests arriving within the cooldown window of `t0` are all dropped
without state change or effects. -/
theorem runReqs_blocked (t0 : Int) (rest : List Req)
    (hrest : ∀ q ∈ rest, 0 ≤ reqTime q - t0 ∧
      reqTime q - t0 < SWITCH_COOLDOWN) :
    ∀ s1 : MgrState, s1.last_switch_time = t0 → runReqs s1 rest = (s1, []) := by
  induction rest with
  | nil => intro s1 _; rfl
  | cons q qs ih =>
    intro s1 h1
    have hq := hrest q (List.mem_cons_self q qs)
    have hblock : reqTime q - s1.last_switch_time < SWITCH_COOLDOWN := by
      rw [h1]; exact hq.2
    unfold runReqs
    rw [applyReq_cooldown s1 q hblock]
    dsimp only
    rw [ih (fun r hr => hrest r (List.mem_cons_of_mem q hr)) s1 h1]
    rfl

/-- The concrete burst of C4's counterexample: an effective switch to
test1 at `t = 10`, then movepic requests at `t = 12` and `t = 14`, each
less than `SWITCH_COOLDOWN` after its predecessor. -/
def burst3 : List Req :=
  [Req.toTest1 10 e_ok, Req.toMovepic 12 e_mpOk, Req.toMovepic 14 e_mpOk]

/-- C4 (counterexample): in a burst whose consecutive gaps are all below
`SWITCH_COOLDOWN` (10, 12, 14: gaps of 2 s), the first request switches
to test1 and starts the cooldown at 10, the request at 12 is dropped,
but the request at 14 is already 4 s past the stamp and switches again:
two actual switches occur and the state after the burst differs from the
state after the first request alone. -/
theorem C4_chained_burst_two_switches :
    (((12 : Int) - 10 < SWITCH_COOLDOWN) ∧ ((14 : Int) - 12 < SWITCH_COOLDOWN)) ∧
    (runReqs s_burst burst3).1.current_program = "movepic" ∧
    (runReqs s_burst [Req.toTest1 10 e_ok]).1.current_program = "test1" ∧
    (runReqs s_burst burst3).1 ≠ (runReqs s_burst [Req.toTest1 10 e_ok]).1 := by
  decide

/-- C4 (amended): if the first request of a burst passes the cooldown
and no-op checks, then every later request issued within
`SWITCH_COOLDOWN` of the *first request's entry time* is dropped, so at
most one switch attempt occurs and the state and trace after the burst
equal those after the first request alone. -/
theorem C4_burst_single_switch (s : MgrState) (r : Req) (rest : List Req)
    (hc : ¬ (reqTime r - s.last_switch_time < SWITCH_COOLDOWN))
    (hn : reqTarget r ≠ s.current_program)
    (hrest : ∀ q ∈ rest, 0 ≤ reqTime q - reqTime r ∧
      reqTime q - reqTime r < SWITCH_COOLDOWN) :
    runReqs s (r :: rest) = runReqs s [r] := by
  have h1 : ((applyReq s r).1).last_switch_time = reqTime r :=
    applyReq_sets_lst s r hc hn
  unfold runReqs
  dsimp only
  rw [runReqs_blocked (reqTime r) rest hrest (applyReq s r).1 h1]
  rfl

/-- Closed witness for `C4_burst_single_switch`: the same effective
first request followed by one request 2 s later. -/
theorem C4_burst_single_switch_witness :
    runReqs s_burst [Req.toTest1 10 e_ok, Req.toMovepic 12 e_mpOk] =
      runReqs s_burst [Req.toTest1 10 e_ok] :=
  C4_burst_single_switch s_burst (Req.toTest1 10 e_ok)
    [Req.toMovepic 12 e_mpOk] (by decide) (by decide)
    (by
      intro q hq
      rw [List.mem_singleton] at hq
      subst hq
      decide)

/-- C5 (counterexample): with strategy outputs `"800x600x32"` then
`"1280x720"`, the first output that parses as a `WIDTHxHEIGHT` pair is
the second one, so the claim demands `(1280, 720)`; the code instead
hits the tuple-unpacking exception on the first output (three fields)
and returns the default without ever trying the second strategy. -/
theorem C5_aborts_instead_of_next_strategy :
    get_screen_resolution ["800x600x32", "1280x720"] = (1024, 600) ∧
    spec_screen_resolution ["800x600x32", "1280x720"] = (1280, 720) ∧
    (((1024, 600) : Int × Int) ≠ (1280, 720)) := by
  decide

/-- C5 (amended): detection scans the strategies in order skipping
outputs without an `x`; at the first output containing an `x` it returns
that output's parse as a `WIDTHxHEIGHT` pair when it parses, and
otherwise stops with the default `(1024, 600)` without trying later
strategies; if no output contains an `x` it returns the default.  In
particular the function is total: it never raises for any strategy
outputs. -/
theorem C5_resolution_behaviour (outs : List String) :
    get_screen_resolution outs = amended_screen_resolution outs := by
  induction outs with
  | nil => rfl
  | cons o rest ih =>
    unfold get_screen_resolution amended_screen_resolution
    dsimp only
    by_cases hx : containsChar 'x' (pyStrip o.data) = true
    · rw [if_pos hx, if_pos hx]
      unfold parsePair?
      rcases hsp : splitOnChar 'x' (pyStrip o.data) with _ | ⟨w, ws⟩
      · simp [hsp]
      · rcases ws with _ | ⟨h, hs⟩
        · simp [hsp]
        · rcases hs with _ | ⟨c, cs⟩
          · simp only [hsp]
            rcases hw : pyInt? w with _ | wi <;>
              rcases hh : pyInt? h with _ | hi <;> simp [hw, hh]
          · simp [hsp]
    · rw [if_neg hx, if_neg hx]
      exact ih

/-- C6 (counterexample): a window whose width differs from the screen
width by exactly 10 px is within ±10 px of the screen size, yet the
code's strict `abs(...) < 10` test fails and it issues the two
window-manager mutation commands instead of zero. -/
theorem C6_tolerance_boundary_not_idempotent :
    ((((1014 : Int) - 1024).natAbs ≤ 10) ∧ (((600 : Int) - 600).natAbs ≤ 10)) ∧
    (force_fullscreen (some "0x3") (GeomView.ok 1014 600) 1024 600 false).1 = true ∧
    (force_fullscreen (some "0x3") (GeomView.ok 1014 600) 1024 600 false).2 ≠ [] := by
  decide

/-- C6 (amended): for every window whose reported geometry differs from
the detected screen size by strictly less than 10 px (at most 9 px) in
both dimensions, `force_fullscreen` returns true and issues zero
window-manager mutation commands, for either value of the force flag. -/
theorem C6_fullscreen_idempotent (wid : String) (w h sw sh : Int)
    (force : Bool)
    (hw : (w - sw).natAbs < 10) (hh : (h - sh).natAbs < 10) :
    force_fullscreen (some wid) (GeomView.ok w h) sw sh force = (true, []) := by
  unfold force_fullscreen
  dsimp only
  rw [if_pos (And.intro hw hh)]

/-- Closed witness for `C6_fullscreen_idempotent` at a 9 px width
difference. -/
theorem C6_fullscreen_idempotent_witness :
    force_fullscreen (some "0x3") (GeomView.ok 1015 600) 1024 600 false =
      (true, []) :=
  C6_fullscreen_idempotent "0x3" 1015 600 1024 600 false (by decide) (by decide)

/-- A movepic switch environment whose window appears only at poll 12
(6 s into the wait). -/
def e_mpLate : MPSwitchEnv := { findAt := lateFind }

/-- C7 (counterexample): the claim's 20 s / early-abort wait policy does
not hold for the IDLE target.  `start_movepic` waits only 5 s (10
polls): a window appearing 6 s in (poll 12) is missed although it is
well within 20 s, and with a dead test1 process the movepic wait still
runs its full 10 polls while the test1 wait aborts after a single poll.
The transition to movepic from a concrete state records exactly the 10
polls of the 5 s wait in its trace. -/
theorem C7_idle_wait_shorter_no_abort :
    (wait_for_window "MovePic.py" 5 lateFind (fun _ => true) true = (false, 10)) ∧
    (wait_for_window "MovePic.py" 20 lateFind (fun _ => true) true = (true, 13)) ∧
    (wait_for_window "MovePic.py" 5 (fun _ => none) (fun _ => false) true =
      (false, 10)) ∧
    (wait_for_window "test1.py" 20 (fun _ => none) (fun _ => false) true =
      (false, 1)) ∧
    ((switch_to_movepic s_mp 100 e_mpLate).2 =
      [Eff.killByName "MovePic.py", Eff.spawnMovepic,
       Eff.waitWindow "MovePic.py" 10 false, Eff.activateCall "MovePic.py"]) := by
  decide

/-- C7 (amended): during a transition to PRIMARY with a non-alive
process, the target is restarted (a launch is dispatched) and its window
wait polls every 0.5 s, running the full 40 polls (20 s) when the window
never appears and the process stays alive, and aborting after the first
poll when the process is dead; the IDLE target's start instead waits
only 5 s (10 polls) and never aborts early on process death. -/
theorem C7_wait_policy (f : Nat → Option String) (a : Nat → Bool)
    (hf : ∀ i, f i = none) :
    (wait_for_window "test1.py" 20 f (fun _ => true) true = (false, 40)) ∧
    (a 0 = false → wait_for_window "test1.py" 20 f a true = (false, 1)) ∧
    (wait_for_window "MovePic.py" 5 f a true = (false, 10)) ∧
    (∀ (s : MgrState) (t : Int) (e : T1SwitchEnv),
      ¬ (t - s.last_switch_time < SWITCH_COOLDOWN) →
      s.current_program ≠ "test1" → e.pollAlive = false →
      Eff.spawnTest1 ∈ (switch_to_test1 s t e).2) := by
  refine ⟨?_, ?_, ?_, ?_⟩
  · exact wait_go_no_find "test1.py" f (fun _ => true) true hf
      (fun j h => by simp at h) 40 0
  · intro ha
    show wait_for_window_go "test1.py" f a true 0 (39 + 1) = (false, 1)
    unfold wait_for_window_go
    rw [hf 0]
    dsimp only
    rw [if_pos ⟨rfl, rfl, ha⟩]
  · exact wait_go_no_find "MovePic.py" f a true hf
      (fun j h => absurd h.1 (by decide)) 10 0
  · intro s t e hcool hn hal
    have hcond : ¬ (s.test1_process = true ∧ e.pollAlive = true) := by
      intro h
      rw [hal] at h
      exact absurd h.2 (by decide)
    unfold switch_to_test1
    rw [if_neg hcool, if_neg hn]
    dsimp only
    rw [if_pos hcond]
    exact List.mem_append_right _ (start_test1_spawns _ _)

/-- Closed witness for `C7_wait_policy` with a window that never
appears. -/
theorem C7_wait_policy_witness :
    wait_for_window "test1.py" 20 (fun _ => none) (fun _ => true) true =
      (false, 40) :=
  (C7_wait_policy (fun _ => none) (fun _ => false) (fun _ => rfl)).1

/-- C8 (counterexample): the signal-file watchdog observes the file
while PRIMARY is current: the file is removed but `last_activity_time`
(and the whole state) is unchanged, so not every signal-file detection
updates `last_activity_time`. -/
theorem C8_signal_detection_no_activity_update :
    ((monitor_low_signal_iter s_mp true 100 e_ok).1 = s_mp) ∧
    ((monitor_low_signal_iter s_mp true 100 e_ok).2 = [Eff.removeSignalFile]) ∧
    (s_mp.last_activity_time = 42 ∧ (42 : Int) ≠ 100) := by
  decide

/-- C8 (amended): the input watchdog updates `last_activity_time`
directly on qualifying events past the startup-grace window; the
signal-file watchdog never updates it directly — when PRIMARY is
current a detection only removes the file and leaves the state
untouched, and when IDLE is current the timestamp is updated only
through the successful switch the watchdog requests. -/
theorem C8_activity_update_paths (s : MgrState) (t st : Int)
    (e : T1SwitchEnv)
    (hg : ¬ (t - st < STARTUP_PROTECTION)) :
    (s.current_program = "test1" →
      (listen_device_input_iter s t st (InputEvent.key 1) e).1.last_activity_time
        = t) ∧
    (s.current_program = "test1" →
      monitor_low_signal_iter s true t e = (s, [Eff.removeSignalFile])) ∧
    (s.current_program = "movepic" →
      ¬ (t - s.last_switch_time < SWITCH_COOLDOWN) →
      s.test1_process = true → e.pollAlive = true →
      e.find1.isSome → e.find2.isSome →
      (monitor_low_signal_iter s true t e).1.last_activity_time = e.t_done) := by
  refine ⟨?_, ?_, ?_⟩
  · intro h
    unfold listen_device_input_iter
    rw [if_neg hg]
    dsimp only
    rw [if_pos rfl, if_neg (by simp [h])]
  · intro h
    unfold monitor_low_signal_iter
    rw [if_pos rfl, if_neg (by simp [h])]
  · intro h hcool hp ha h1 h2
    unfold monitor_low_signal_iter
    rw [if_pos rfl, if_pos h]
    dsimp only
    have hn : s.current_program ≠ "test1" := by rw [h]; decide
    exact (switch_to_test1_success s t e hcool hn hp ha h1 h2).2.1

/-- Closed witness for `C8_activity_update_paths`: a key-down at
`t = 100`, past the grace window, while PRIMARY is current. -/
theorem C8_activity_update_paths_witness :
    (listen_device_input_iter s_mp 100 0 (InputEvent.key 1)
        e_ok).1.last_activity_time = 100 :=
  (C8_activity_update_paths s_mp 100 0 e_ok (by decide)).1 rfl

/-- C9: requesting a switch to the currently foregrounded program
returns with the state unchanged (timestamps and restart counter
included) and an empty effect trace — whether the request lands inside
the cooldown window (dropped there) or reaches the no-op check. -/
theorem C9_noop_switch (s : MgrState) (t : Int)
    (eT : T1SwitchEnv) (eM : MPSwitchEnv) :
    (s.current_program = "test1" → switch_to_test1 s t eT = (s, [])) ∧
    (s.current_program = "movepic" → switch_to_movepic s t eM = (s, [])) := by
  constructor
  · intro h
    unfold switch_to_test1
    by_cases hc : t - s.last_switch_time < SWITCH_COOLDOWN
    · rw [if_pos hc]
    · rw [if_neg hc, if_pos h]
  · intro h
    unfold switch_to_movepic
    by_cases hc : t - s.last_switch_time < SWITCH_COOLDOWN
    · rw [if_pos hc]
    · rw [if_neg hc, if_pos h]

/-- Closed witness for `C9_noop_switch`: requesting test1 while test1 is
current. -/
theorem C9_noop_switch_witness :
    switch_to_test1 s_mp 100 e_ok = (s_mp, []) :=
  (C9_noop_switch s_mp 100 e_ok e_mpOk).1 rfl

/-- A switch environment in which everything fails: the process poll
reports dead and no window ever appears. -/
def e_fail : T1SwitchEnv :=
  { pollAlive := false, find1 := none, activate1 := false, find2 := none,
    t_done := 0, atts := [deadEnv] }

/-- C10: every `switch_to_test1` call past the cooldown and no-op checks
sets `last_switch_time` to the call's entry time, on the success path
and on every failure path alike, so a failed attempt also starts the
3-second cooldown. -/
theorem C10_every_attempt_stamps_cooldown (s : MgrState) (t : Int)
    (env : T1SwitchEnv)
    (hc : ¬ (t - s.last_switch_time < SWITCH_COOLDOWN))
    (hn : s.current_program ≠ "test1") :
    ((switch_to_test1 s t env).1).last_switch_time = t :=
  switch_to_test1_sets_lst s t env hc hn

/-- Closed witness for `C10_every_attempt_stamps_cooldown` on a fully
failing transition attempt. -/
theorem C10_every_attempt_stamps_cooldown_witness :
    ((switch_to_test1 s_burst 10 e_fail).1).last_switch_time = 10 :=
  C10_every_attempt_stamps_cooldown s_burst 10 e_fail (by decide) (by decide)

end AppManager
